import Mathlib

set_option linter.unusedVariables false

/-!
Shallow embedding of the P2Button firmware core
(`src/Xiao ESP32-S3 plus/firmware/ESP32_s3PLUS_NewRECORDING.ino`):
the state machine (`transitionToState` with its entry/exit actions),
the BLE command gateway (the parsing loop of `BLEManagerTask`,
`SystemBLECharCallbacks::onWrite`, burst suppression), the BLE
connection-health tracker, the button classifier (`ButtonManagerTask`),
the UI render-command consumer (`UIManagerTask`) and the watchdog
(`WatchdogTask`).

Modelling conventions: C enums (`SystemState_t`, `SystemEvent_t`) are
embedded as `Nat` with their declared numeric values so that
out-of-range values are expressible, exactly as a C caller could pass
them.  FreeRTOS tick times and `millis()` values are modelled as `Nat`
(the claims under study never exercise the 2^32 wraparound of
`TickType_t`/`uint32_t`).  Mutex acquisition is modelled as always
succeeding, giving the sequential semantics of each routine.  Pure
hardware I/O (buzzer, LEDs, LVGL calls, FreeRTOS timer arming, serial
logging) has no effect on the embedded state and is elided; queue sends
are modelled by returning the enqueued messages.  The `float`
`batteryLevel` field is omitted (never touched by the modelled code).
-/

--========================================================================================
-- STATE MACHINE DEFINITIONS (SystemState_t, SystemEvent_t, UICommand_t)
--========================================================================================

def STATE_STARTUP : Nat := 0
def STATE_LOGO : Nat := 1
def STATE_SETUP : Nat := 2
def STATE_LOGIN : Nat := 3
def STATE_UNLOCK : Nat := 4
def STATE_RECORDING : Nat := 5
def STATE_UPLOADING : Nat := 6
def STATE_ERROR : Nat := 7
def STATE_SHUTDOWN : Nat := 8
def STATE_MAX : Nat := 9

def EVENT_STARTUP_COMPLETE : Nat := 0
def EVENT_BLE_CONNECTED : Nat := 1
def EVENT_BLE_DISCONNECTED : Nat := 2
def EVENT_APP_COMMAND : Nat := 3
def EVENT_BUTTON_SHORT_PRESS : Nat := 4
def EVENT_BUTTON_LONG_PRESS : Nat := 5
def EVENT_TIMEOUT : Nat := 6

/-- `UICommand_t` from the source. -/
inductive UICommand where
  | loadScreen
  | showMessage
  | startAnimation
  | stopAnimation
  | updateProgress
  | clearScreen
deriving DecidableEq, Repr

/-- `ANIM_NONE` from `AnimationType_t` (the only animation value the
modelled code ever places in a message). -/
def ANIM_NONE : Nat := 0

-- Timing constants from the source header.
def LONG_PRESS_MS : Nat := 2000
def SYSTEM_WATCHDOG_MS : Nat := 30000

--========================================================================================
-- DATA STRUCTURES
--========================================================================================

/-- `SystemEventMsg_t` from the source. -/
structure SystemEventMsg where
  event : Nat
  targetState : Nat
  param1 : Nat
  param2 : Nat
  data : String
  timestamp : Nat
deriving DecidableEq, Repr

/-- `UIRenderMsg_t` from the source. -/
structure UIRenderMsg where
  command : UICommand
  state : Nat
  animation : Nat
  message : String
  duration : Nat
  isError : Bool
  progress : Nat
  highPriority : Bool
  forceRefresh : Bool
  timestamp : Nat
deriving DecidableEq, Repr

/-- `BLECommandMsg_t` from the source. -/
structure BLECommandMsg where
  command : String
  data : String
  timestamp : Nat
deriving DecidableEq, Repr

/-- `ButtonEvent_t` from the source. -/
structure ButtonEvent where
  pressed : Bool
  duration : Nat
  timestamp : Nat
  isLongPress : Bool
deriving DecidableEq, Repr

/-- `SystemStatus_t` from the source (minus the `float batteryLevel`
field, which none of the modelled routines touches). -/
structure SystemStatus where
  currentState : Nat
  previousState : Nat
  stateEnterTime : Nat
  lastActivityTime : Nat
  stateTimeoutMs : Nat
  isConnected : Bool
  isUIReady : Bool
  errorCount : Nat
  lastUIState : Nat
  lastUIUpdateTime : Nat
  uiMissedUpdates : Nat
  forceUIRefresh : Bool
  isLoginFirstScreen : Bool
  isRecordingHoldToUpload : Bool
  isLogoAlt : Bool
  lastBurstState : Nat
  suppressAppCmdUntil : Nat
  bleBurstActive : Bool
deriving DecidableEq, Repr

/-- The static initializer of the global `systemStatus`. -/
def initialSystemStatus : SystemStatus :=
  { currentState := STATE_STARTUP
    previousState := STATE_STARTUP
    stateEnterTime := 0
    lastActivityTime := 0
    stateTimeoutMs := 0
    isConnected := false
    isUIReady := false
    errorCount := 0
    lastUIState := STATE_STARTUP
    lastUIUpdateTime := 0
    uiMissedUpdates := 0
    forceUIRefresh := false
    isLoginFirstScreen := true
    isRecordingHoldToUpload := false
    isLogoAlt := false
    lastBurstState := STATE_MAX
    suppressAppCmdUntil := 0
    bleBurstActive := false }

/-- `BLEConnectionHealth_t` from the source. -/
structure BLEConnectionHealth where
  isConnected : Bool
  connectionTime : Nat
  lastSuccessfulIndication : Nat
  indicationFailureCount : Nat
  totalIndicationsSent : Nat
  connectionStable : Bool
deriving DecidableEq, Repr

/-- The static initializer of the global `bleHealth`. -/
def initialBleHealth : BLEConnectionHealth :=
  { isConnected := false
    connectionTime := 0
    lastSuccessfulIndication := 0
    indicationFailureCount := 0
    totalIndicationsSent := 0
    connectionStable := false }

--========================================================================================
-- BLE COMMAND GATEWAY: inbound path
--========================================================================================

/-- Arduino `String::startsWith`: the embedding of the receiver begins
with the argument. -/
def arduinoStartsWith (s pre : String) : Bool :=
  pre.data.isPrefixOf s.data

/-- The command-parsing branch chain of `BLEManagerTask` (source lines
608-636): maps an inbound token to the target state plus the `data`
label written into the system event, or `none` for an unknown command
(the task logs and `continue`s, producing no event). -/
def parseAppCommand (command : String) : Option (Nat × String) :=
  if arduinoStartsWith command "Login" then some (STATE_LOGIN, "App_Login_Command")
  else if command = "Unlock" then some (STATE_UNLOCK, "App_Unlock_Command")
  else if command = "Record" then some (STATE_RECORDING, "App_Record_Command")
  else if command = "Upload" then some (STATE_UPLOADING, "App_Upload_Command")
  else if command = "Logout" then some (STATE_LOGO, "App_Logout_Command")
  else if command = "Setup" then some (STATE_SETUP, "App_Setup_Command")
  else none

/-- `isAppCmdSuppressed` from the source: a target state is suppressed
when it equals `lastBurstState` and the current tick is before
`suppressAppCmdUntil`. -/
def isAppCmdSuppressed (state now : Nat) (st : SystemStatus) : Bool :=
  decide (state = st.lastBurstState) && decide (now < st.suppressAppCmdUntil)

/-- One iteration of the `BLEManagerTask` command loop for an inbound
token: parse, then drop (no system event) if the target is suppressed,
otherwise build the `EVENT_APP_COMMAND` system event that is queued. -/
def bleManagerStep (token : String) (now : Nat) (st : SystemStatus) :
    Option SystemEventMsg :=
  match parseAppCommand token with
  | none => none
  | some (target, label) =>
    if isAppCmdSuppressed target now st then none
    else some { event := EVENT_APP_COMMAND, targetState := target,
                param1 := 0, param2 := 0, data := label, timestamp := now }

/-- `SystemBLECharCallbacks::onWrite`: the queued `BLECommandMsg_t`
carries only the written value; the characteristic the write arrived on
(`charIdx` indexes `bleCharacteristics`) is not consulted. -/
def charOnWrite (charIdx : Nat) (value : String) (now : Nat) : BLECommandMsg :=
  { command := value, data := "", timestamp := now }

/-- Target state ultimately requested by a write of `value` on
characteristic `charIdx`: the queued message is parsed by
`BLEManagerTask`. -/
def appCommandTargetOfWrite (charIdx : Nat) (value : String) (now : Nat) :
    Option Nat :=
  (parseAppCommand (charOnWrite charIdx value now).command).map Prod.fst

--========================================================================================
-- BLE CONFIGURATION (the bleCharacteristics table)
--========================================================================================

/-- `BLECharDef` from the source; the `properties` bitmask is unfolded
into the three flags the modelled code tests. -/
structure BLECharDef where
  serviceUUID : String
  charUUID : String
  propIndicate : Bool
  propWrite : Bool
  propRead : Bool
  associatedState : Nat
  indicationMessage : String
deriving DecidableEq, Repr

/-- The static `bleCharacteristics[]` table from the source. -/
def bleCharacteristics : List BLECharDef :=
  [ { serviceUUID := "19b10000-e8f2-537e-4f6c-d104768a1214",
      charUUID := "19b10001-e8f2-537e-4f6c-d104768a1214",
      propIndicate := true, propWrite := false, propRead := false,
      associatedState := STATE_UNLOCK, indicationMessage := "Unlock (Button)" },
    { serviceUUID := "19b10000-e8f2-537e-4f6c-d104768a1214",
      charUUID := "19b10002-e8f2-537e-4f6c-d104768a1214",
      propIndicate := false, propWrite := true, propRead := false,
      associatedState := STATE_UNLOCK, indicationMessage := "" },
    { serviceUUID := "19b10000-e8f2-537e-4f6c-d104768a1214",
      charUUID := "19b10003-e8f2-537e-4f6c-d104768a1214",
      propIndicate := true, propWrite := false, propRead := false,
      associatedState := STATE_RECORDING, indicationMessage := "Record (Button)" },
    { serviceUUID := "19b10000-e8f2-537e-4f6c-d104768a1214",
      charUUID := "19b10004-e8f2-537e-4f6c-d104768a1214",
      propIndicate := false, propWrite := true, propRead := false,
      associatedState := STATE_RECORDING, indicationMessage := "" },
    { serviceUUID := "19b10000-e8f2-537e-4f6c-d104768a1214",
      charUUID := "19b10005-e8f2-537e-4f6c-d104768a1214",
      propIndicate := true, propWrite := false, propRead := false,
      associatedState := STATE_UPLOADING, indicationMessage := "Upload (Button)" },
    { serviceUUID := "19b20000-e8f2-537e-4f6c-d104768a1214",
      charUUID := "19b20001-e8f2-537e-4f6c-d104768a1214",
      propIndicate := false, propWrite := true, propRead := false,
      associatedState := STATE_UPLOADING, indicationMessage := "" },
    { serviceUUID := "19b20000-e8f2-537e-4f6c-d104768a1214",
      charUUID := "19b20002-e8f2-537e-4f6c-d104768a1214",
      propIndicate := false, propWrite := true, propRead := false,
      associatedState := STATE_SETUP, indicationMessage := "" },
    { serviceUUID := "19b20000-e8f2-537e-4f6c-d104768a1214",
      charUUID := "19b20003-e8f2-537e-4f6c-d104768a1214",
      propIndicate := false, propWrite := true, propRead := false,
      associatedState := STATE_LOGIN, indicationMessage := "" },
    { serviceUUID := "19b20000-e8f2-537e-4f6c-d104768a1214",
      charUUID := "19b20004-e8f2-537e-4f6c-d104768a1214",
      propIndicate := false, propWrite := true, propRead := false,
      associatedState := STATE_LOGO, indicationMessage := "" },
    { serviceUUID := "19b20000-e8f2-537e-4f6c-d104768a1214",
      charUUID := "19b20005-e8f2-537e-4f6c-d104768a1214",
      propIndicate := false, propWrite := false, propRead := true,
      associatedState := STATE_MAX, indicationMessage := "" } ]

--========================================================================================
-- UI COMMAND SENDERS
--========================================================================================

/-- `sendUICommandEnhanced` from the source: builds the `UIRenderMsg_t`
that is placed on `uiRenderQueue` (`animation` is always `ANIM_NONE`,
`isError` always false, `progress` always 0 in the source literal). -/
def sendUICommandEnhanced (cmd : UICommand) (state : Nat) (message : String)
    (duration : Nat) (forceRefresh highPriority : Bool) (now : Nat) : UIRenderMsg :=
  { command := cmd, state := state, animation := ANIM_NONE, message := message,
    duration := duration, isError := false, progress := 0,
    highPriority := highPriority, forceRefresh := forceRefresh, timestamp := now }

/-- `sendUICommand`: backward-compatibility wrapper with
`forceRefresh = false, highPriority = false`. -/
def sendUICommand (cmd : UICommand) (state : Nat) (message : String)
    (duration : Nat) (now : Nat) : UIRenderMsg :=
  sendUICommandEnhanced cmd state message duration false false now

/-- `showMessage` from the source: forwards to `sendUICommand` with
state `STATE_MAX` (the `isError` argument is dropped by the source). -/
def showMessage (message : String) (duration : Nat) (isError : Bool)
    (now : Nat) : UIRenderMsg :=
  sendUICommand UICommand.showMessage STATE_MAX message duration now

--========================================================================================
-- STATE MACHINE IMPLEMENTATION
--========================================================================================

/-- `getStateTimeout` from the source. -/
def getStateTimeout (state : Nat) : Nat :=
  if state = STATE_SETUP ∨ state = STATE_LOGIN then 180000
  else if state = STATE_UNLOCK then 120000
  else if state = STATE_RECORDING ∨ state = STATE_UPLOADING then 240000
  else if state = STATE_ERROR then 30000
  else 0

/-- `executeStateExit` from the source: the UI commands it enqueues
(buzzer/LED output and FreeRTOS timer stops are hardware effects with
no footprint in the embedded state). -/
def executeStateExit (state now : Nat) : List UIRenderMsg :=
  if state = STATE_RECORDING ∨ state = STATE_UPLOADING then
    [sendUICommand UICommand.stopAnimation state "" 0 now]
  else []

/-- `executeStateEntry` from the source: the status-flag mutations and
enqueued UI commands per entered state (buzzer/LED calls and timer
starts elided as hardware effects). -/
def executeStateEntry (state now : Nat) (st : SystemStatus) :
    SystemStatus × List UIRenderMsg :=
  if state = STATE_LOGO then ({ st with isLogoAlt := false }, [])
  else if state = STATE_SETUP then (st, [showMessage "Device Ready" 2000 false now])
  else if state = STATE_LOGIN then
    ({ st with isLoginFirstScreen := true },
     [showMessage "Hold button for 2 sec" 3000 false now])
  else if state = STATE_UNLOCK then (st, [showMessage "Press once to Record" 2000 false now])
  else if state = STATE_RECORDING then
    (st, [sendUICommand UICommand.startAnimation state "" 0 now])
  else if state = STATE_UPLOADING then
    ({ st with isRecordingHoldToUpload := false },
     [sendUICommand UICommand.startAnimation state "" 0 now])
  else if state = STATE_ERROR then (st, [showMessage "System Error" 5000 true now])
  else (st, [])

/-- `transitionToState` from the source, sequential semantics (the
state mutex is acquired): returns the success flag, the updated status
and the UI commands enqueued along the way (exit actions, entry
actions, then the high-priority `LOAD_SCREEN`).  `now` stands for
`xTaskGetTickCount()` at the transition. -/
def transitionToState (newState now : Nat) (st : SystemStatus) :
    Bool × SystemStatus × List UIRenderMsg :=
  let oldState := st.currentState
  if STATE_MAX ≤ newState then (false, st, [])
  else
    let exitMsgs := executeStateExit oldState now
    let isCriticalTransition :=
      (oldState = STATE_UNLOCK ∧ newState = STATE_RECORDING) ∨
      (oldState = STATE_RECORDING ∧ newState = STATE_UPLOADING) ∨
      (oldState = STATE_UPLOADING ∧ newState = STATE_UNLOCK)
    let st1 := { st with previousState := oldState, currentState := newState,
                         stateEnterTime := now,
                         stateTimeoutMs := getStateTimeout newState }
    let st2 := if isCriticalTransition then { st1 with forceUIRefresh := true } else st1
    let entry := executeStateEntry newState now st2
    (true, entry.1,
     exitMsgs ++ entry.2 ++
       [sendUICommandEnhanced UICommand.loadScreen newState "" 0
          (decide isCriticalTransition) true now])

--========================================================================================
-- BURST SUPPRESSION AND CONNECTION HEALTH
--========================================================================================

/-- `startAppCmdSuppression` from the source. -/
def startAppCmdSuppression (state duration_ms now : Nat) (st : SystemStatus) :
    SystemStatus :=
  { st with lastBurstState := state, suppressAppCmdUntil := now + duration_ms }

/-- `sendBLEButtonIndicationBurst` from the source, restricted to its
effect on `systemStatus`: marks the burst active, installs the
suppression window `(repeats - 1) * spacing_ms + 120` when requested,
and clears the burst flag (the repeated `sendBLEButtonIndication`
calls touch only `bleHealth` and the radio). -/
def sendBLEButtonIndicationBurst (state repeats spacing_ms : Nat)
    (suppressReactions : Bool) (now : Nat) (st : SystemStatus) : SystemStatus :=
  let st1 := { st with bleBurstActive := true }
  let st2 :=
    if suppressReactions then
      startAppCmdSuppression state
        ((if 0 < repeats then (repeats - 1) * spacing_ms else 0) + 120) now st1
    else st1
  { st2 with bleBurstActive := false }

/-- `updateBLEConnectionHealth` from the source. -/
def updateBLEConnectionHealth (indicationSuccess : Bool) (now : Nat)
    (h : BLEConnectionHealth) : BLEConnectionHealth :=
  if indicationSuccess then
    { h with lastSuccessfulIndication := now,
             indicationFailureCount := 0,
             connectionStable := true,
             totalIndicationsSent := h.totalIndicationsSent + 1 }
  else
    let h1 := { h with indicationFailureCount := h.indicationFailureCount + 1 }
    if 2 < h1.indicationFailureCount then { h1 with connectionStable := false }
    else h1

--========================================================================================
-- BUTTON CLASSIFIER (ButtonManagerTask)
--========================================================================================

/-- Inter-iteration state of the `ButtonManagerTask` loop:
`lastButtonState` (`true` = HIGH), `pressStartTime` (a `millis()`
value) and the `pressProcessed` flag. -/
structure ButtonTaskState where
  lastButtonState : Bool
  pressStartTime : Nat
  pressProcessed : Bool
deriving DecidableEq, Repr

/-- One loop iteration's inputs: the `digitalRead` at the top of the
loop (`level`, `true` = HIGH), the confirming `digitalRead` after the
debounce delay (`debouncedLevel`), `millis()` (`timeMs`) and
`xTaskGetTickCount()` (`tick`). -/
structure ButtonSample where
  level : Bool
  debouncedLevel : Bool
  timeMs : Nat
  tick : Nat
deriving DecidableEq, Repr

/-- One iteration of the `ButtonManagerTask` loop (source lines
666-721): press-edge detection with debounce, release-edge
classification (`isLongPress` iff duration reaches `LONG_PRESS_MS`),
and the in-hold long-press branch guarded by `pressProcessed`. -/
def buttonStep (st : ButtonTaskState) (inp : ButtonSample) :
    ButtonTaskState × List ButtonEvent :=
  if st.lastButtonState = true ∧ inp.level = false then
    if inp.debouncedLevel = false then
      ({ lastButtonState := inp.level, pressStartTime := inp.timeMs,
         pressProcessed := false }, [])
    else ({ st with lastButtonState := inp.level }, [])
  else if st.lastButtonState = false ∧ inp.level = true then
    if inp.debouncedLevel = true ∧ st.pressProcessed = false then
      ({ st with lastButtonState := inp.level, pressProcessed := true },
       [{ pressed := false, duration := inp.timeMs - st.pressStartTime,
          timestamp := inp.tick,
          isLongPress := decide (LONG_PRESS_MS ≤ inp.timeMs - st.pressStartTime) }])
    else ({ st with lastButtonState := inp.level }, [])
  else if inp.level = false ∧ st.pressProcessed = false then
    if LONG_PRESS_MS ≤ inp.timeMs - st.pressStartTime then
      ({ st with lastButtonState := inp.level, pressProcessed := true },
       [{ pressed := true, duration := inp.timeMs - st.pressStartTime,
          timestamp := inp.tick, isLongPress := true }])
    else ({ st with lastButtonState := inp.level }, [])
  else ({ st with lastButtonState := inp.level }, [])

/-- Iterated `buttonStep` over a list of samples, collecting all
emitted button events in order. -/
def buttonRun (st : ButtonTaskState) : List ButtonSample → ButtonTaskState × List ButtonEvent
  | [] => (st, [])
  | inp :: rest =>
    let s := buttonStep st inp
    let r := buttonRun s.1 rest
    (r.1, s.2 ++ r.2)

/-- Number of in-hold long-press events (`pressed = true`) in a list of
emitted button events. -/
def heldEventCount (evs : List ButtonEvent) : Nat :=
  (evs.filter (fun e => e.pressed)).length

--========================================================================================
-- UI MANAGER (UIManagerTask command handling)
--========================================================================================

/-- Handling of one `UIRenderMsg_t` by `UIManagerTask` (source lines
1006-1076), restricted to the screen-tracking state: takes the task's
local `lastDisplayedState` and the shared status, returns the new
`lastDisplayedState`, updated status, and whether `loadScreen` ran.
Commands other than `UI_CMD_LOAD_SCREEN` never touch these fields. -/
def processUIRenderMsg (msg : UIRenderMsg) (lastDisplayedState now : Nat)
    (st : SystemStatus) : Nat × SystemStatus × Bool :=
  match msg.command with
  | UICommand.loadScreen =>
    if msg.forceRefresh ∨ ¬ msg.state = lastDisplayedState ∨ msg.highPriority then
      (msg.state,
       { st with lastUIState := msg.state, lastUIUpdateTime := now,
                 forceUIRefresh := false }, true)
    else
      (lastDisplayedState,
       { st with uiMissedUpdates := st.uiMissedUpdates + 1 }, false)
  | _ => (lastDisplayedState, st, false)

--========================================================================================
-- WATCHDOG (WatchdogTask)
--========================================================================================

/-- One health sample taken by `WatchdogTask`: the current tick and the
`lastActivityTime` / `errorCount` read from the status record. -/
structure WatchdogSample where
  currentTime : Nat
  lastActivity : Nat
  errorCount : Nat
deriving DecidableEq, Repr

/-- The restart condition of one `WatchdogTask` iteration: frozen for
longer than `SYSTEM_WATCHDOG_MS`, or more than 10 recorded errors. -/
def watchdogTrips (s : WatchdogSample) : Bool :=
  decide (SYSTEM_WATCHDOG_MS < s.currentTime - s.lastActivity) ||
  decide (10 < s.errorCount)

/-- The `WatchdogTask` loop over a trace of samples, counting
`esp_restart()` calls: a restart reboots the device, so the loop never
runs past the first tripping sample. -/
def watchdogRun : List WatchdogSample → Nat
  | [] => 0
  | s :: rest => if watchdogTrips s then 1 else watchdogRun rest

--========================================================================================
-- SHARED HELPER LEMMAS
--========================================================================================

/-- Entry actions never touch `currentState`, `previousState` or
`stateEnterTime`; they only flip per-state UI flags. -/
theorem executeStateEntry_preserves (state now : Nat) (st : SystemStatus) :
    (executeStateEntry state now st).1.currentState = st.currentState ∧
    (executeStateEntry state now st).1.previousState = st.previousState ∧
    (executeStateEntry state now st).1.stateEnterTime = st.stateEnterTime := by
  unfold executeStateEntry
  split_ifs <;> simp

/-- An in-range transition succeeds and records the new state, the old
state as `previousState`, and the transition time as `stateEnterTime`. -/
theorem transitionToState_spec (s now : Nat) (st : SystemStatus) (h : s < STATE_MAX) :
    (transitionToState s now st).1 = true ∧
    (transitionToState s now st).2.1.currentState = s ∧
    (transitionToState s now st).2.1.previousState = st.currentState ∧
    (transitionToState s now st).2.1.stateEnterTime = now := by
  have hn : ¬ (STATE_MAX ≤ s) := by omega
  unfold transitionToState
  rw [if_neg hn]
  refine ⟨rfl, ?_, ?_, ?_⟩
  · rw [(executeStateEntry_preserves _ _ _).1]
    split <;> rfl
  · rw [(executeStateEntry_preserves _ _ _).2.1]
    split <;> rfl
  · rw [(executeStateEntry_preserves _ _ _).2.2]
    split <;> rfl

--========================================================================================
-- CLAIM THEOREMS
--========================================================================================

/-- C1: after every successful `transitionToState` call — for any prior
status, so for every reachable transition sequence, self-transitions
such as Recording to Recording included — `previousState` equals the
value `currentState` held immediately before the call, and
`stateEnterTime` is set to the time of the transition. -/
theorem transition_records_previous_and_enter_time
    (newState now : Nat) (st : SystemStatus)
    (hsucc : (transitionToState newState now st).1 = true) :
    (transitionToState newState now st).2.1.previousState = st.currentState ∧
    (transitionToState newState now st).2.1.stateEnterTime = now := by
  by_cases h : newState < STATE_MAX
  · exact ⟨(transitionToState_spec newState now st h).2.2.1,
      (transitionToState_spec newState now st h).2.2.2⟩
  · exfalso
    unfold transitionToState at hsucc
    rw [if_pos (by omega)] at hsucc
    simp at hsucc

/-- Witness for C1 at a concrete self-transition Recording → Recording. -/
theorem transition_records_previous_and_enter_time_witness :
    (transitionToState STATE_RECORDING 77
        { initialSystemStatus with currentState := STATE_RECORDING }).1 = true ∧
    (transitionToState STATE_RECORDING 77
        { initialSystemStatus with currentState := STATE_RECORDING }).2.1.previousState
      = STATE_RECORDING ∧
    (transitionToState STATE_RECORDING 77
        { initialSystemStatus with currentState := STATE_RECORDING }).2.1.stateEnterTime
      = 77 := by
  have h := transition_records_previous_and_enter_time STATE_RECORDING 77
    { initialSystemStatus with currentState := STATE_RECORDING } (by decide)
  exact ⟨by decide, h.1, h.2⟩

/-- C2: `transitionToState` with a target at or beyond `STATE_MAX`
returns failure and has no side effects: the whole status record is
unchanged, no exit or entry actions run, and no UI command is
enqueued. -/
theorem transition_out_of_range_rejected
    (newState now : Nat) (st : SystemStatus) (h : STATE_MAX ≤ newState) :
    transitionToState newState now st = (false, st, []) := by
  unfold transitionToState
  rw [if_pos h]

/-- Witness for C2 at the concrete out-of-range target `STATE_MAX`. -/
theorem transition_out_of_range_rejected_witness :
    STATE_MAX ≤ 9 ∧
    transitionToState 9 123 initialSystemStatus = (false, initialSystemStatus, []) :=
  ⟨by decide, transition_out_of_range_rejected 9 123 initialSystemStatus (by decide)⟩

/-- C6: starting at Unlock, the transition sequence Recording →
Uploading → Unlock succeeds throughout and closes the cycle: the
machine is back at Unlock with `previousState = Uploading`. -/
theorem cyclic_flow_round_trip (st : SystemStatus) (t1 t2 t3 : Nat)
    (h : st.currentState = STATE_UNLOCK) :
    (transitionToState STATE_RECORDING t1 st).1 = true ∧
    (transitionToState STATE_UPLOADING t2
      (transitionToState STATE_RECORDING t1 st).2.1).1 = true ∧
    (transitionToState STATE_UNLOCK t3
      (transitionToState STATE_UPLOADING t2
        (transitionToState STATE_RECORDING t1 st).2.1).2.1).1 = true ∧
    (transitionToState STATE_UNLOCK t3
      (transitionToState STATE_UPLOADING t2
        (transitionToState STATE_RECORDING t1 st).2.1).2.1).2.1.currentState
      = STATE_UNLOCK ∧
    (transitionToState STATE_UNLOCK t3
      (transitionToState STATE_UPLOADING t2
        (transitionToState STATE_RECORDING t1 st).2.1).2.1).2.1.previousState
      = STATE_UPLOADING := by
  have s1 := transitionToState_spec STATE_RECORDING t1 st (by decide)
  have s2 := transitionToState_spec STATE_UPLOADING t2
    (transitionToState STATE_RECORDING t1 st).2.1 (by decide)
  have s3 := transitionToState_spec STATE_UNLOCK t3
    (transitionToState STATE_UPLOADING t2
      (transitionToState STATE_RECORDING t1 st).2.1).2.1 (by decide)
  refine ⟨s1.1, s2.1, s3.1, s3.2.1, ?_⟩
  rw [s3.2.2.1, s2.2.1]

/-- Witness for C6 from a concrete status sitting at Unlock. -/
theorem cyclic_flow_round_trip_witness :
    ({ initialSystemStatus with currentState := STATE_UNLOCK } :
        SystemStatus).currentState = STATE_UNLOCK ∧
    (transitionToState STATE_UNLOCK 3
      (transitionToState STATE_UPLOADING 2
        (transitionToState STATE_RECORDING 1
          { initialSystemStatus with
              currentState := STATE_UNLOCK }).2.1).2.1).2.1.currentState
      = STATE_UNLOCK ∧
    (transitionToState STATE_UNLOCK 3
      (transitionToState STATE_UPLOADING 2
        (transitionToState STATE_RECORDING 1
          { initialSystemStatus with
              currentState := STATE_UNLOCK }).2.1).2.1).2.1.previousState
      = STATE_UPLOADING := by
  have h := cyclic_flow_round_trip
    { initialSystemStatus with currentState := STATE_UNLOCK } 1 2 3 rfl
  exact ⟨rfl, h.2.2.2.1, h.2.2.2.2⟩

/-- C3: the gateway's token mapping, rule by rule: any token with the
`Login` prefix maps to Login; the exact tokens `Unlock`, `Record`,
`Upload`, `Logout`, `Setup` map to Unlock, Recording, Uploading, Logo,
Setup respectively; every other token parses to nothing and hence
produces no system event.  Matching is by exact character comparison,
so it is case-sensitive. -/
theorem ble_token_mapping (tok : String) :
    (arduinoStartsWith tok "Login" = true →
      parseAppCommand tok = some (STATE_LOGIN, "App_Login_Command")) ∧
    (tok = "Unlock" → parseAppCommand tok = some (STATE_UNLOCK, "App_Unlock_Command")) ∧
    (tok = "Record" → parseAppCommand tok = some (STATE_RECORDING, "App_Record_Command")) ∧
    (tok = "Upload" → parseAppCommand tok = some (STATE_UPLOADING, "App_Upload_Command")) ∧
    (tok = "Logout" → parseAppCommand tok = some (STATE_LOGO, "App_Logout_Command")) ∧
    (tok = "Setup" → parseAppCommand tok = some (STATE_SETUP, "App_Setup_Command")) ∧
    (arduinoStartsWith tok "Login" = false → tok ≠ "Unlock" → tok ≠ "Record" →
      tok ≠ "Upload" → tok ≠ "Logout" → tok ≠ "Setup" →
      parseAppCommand tok = none) ∧
    (parseAppCommand tok = none → ∀ (now : Nat) (st : SystemStatus),
      bleManagerStep tok now st = none) := by
  refine ⟨?_, ?_, ?_, ?_, ?_, ?_, ?_, ?_⟩
  · intro h; simp [parseAppCommand, h]
  · intro h; subst h; decide
  · intro h; subst h; decide
  · intro h; subst h; decide
  · intro h; subst h; decide
  · intro h; subst h; decide
  · intro h1 h2 h3 h4 h5 h6
    simp [parseAppCommand, h1, h2, h3, h4, h5, h6]
  · intro h now st
    simp [bleManagerStep, h]

/-- Witness for C3: a suffixed Login token is accepted, and the
lowercase token `record` (case mismatch) is rejected and yields no
system event. -/
theorem ble_token_mapping_witness :
    arduinoStartsWith "LoginUser42" "Login" = true ∧
    parseAppCommand "LoginUser42" = some (STATE_LOGIN, "App_Login_Command") ∧
    parseAppCommand "record" = none ∧
    bleManagerStep "record" 5 initialSystemStatus = none := by
  have h1 := (ble_token_mapping "LoginUser42").1 (by decide)
  have h2 := (ble_token_mapping "record").2.2.2.2.2.2.1
    (by decide) (by decide) (by decide) (by decide) (by decide) (by decide)
  have h3 := (ble_token_mapping "record").2.2.2.2.2.2.2 h2 5 initialSystemStatus
  exact ⟨by decide, h1, h2, h3⟩

/-- C4: after `sendBLEButtonIndicationBurst s 3 30 true` installs its
suppression window at time `now`, an app command whose parsed target is
`s` is dropped by the gateway (no system event) exactly when it is
checked strictly before `now + (2*30 + 120)` ms; at or past that
instant it is accepted, and commands targeting any other state are
never dropped by the window. -/
theorem burst_suppression_window (st : SystemStatus) (s now t : Nat)
    (tok lab : String) (target : Nat)
    (hp : parseAppCommand tok = some (target, lab)) :
    bleManagerStep tok t (sendBLEButtonIndicationBurst s 3 30 true now st) = none ↔
      (target = s ∧ t < now + (2 * 30 + 120)) := by
  have hb : (sendBLEButtonIndicationBurst s 3 30 true now st).lastBurstState = s := by
    simp [sendBLEButtonIndicationBurst, startAppCmdSuppression]
  have hu : (sendBLEButtonIndicationBurst s 3 30 true now st).suppressAppCmdUntil
      = now + 180 := by
    simp [sendBLEButtonIndicationBurst, startAppCmdSuppression]
  unfold bleManagerStep
  rw [hp]
  simp only [isAppCmdSuppressed, hb, hu]
  split_ifs with hcond
  · simp only [Bool.and_eq_true, decide_eq_true_eq] at hcond
    simp [hcond.1, hcond.2]
  · simp only [Bool.and_eq_true, decide_eq_true_eq, not_and_or] at hcond
    simp only [reduceCtorEq, false_iff]
    intro hc
    rcases hcond with hne | hge
    · exact hne hc.1
    · omega

/-- Witness for C4: concrete drop before the window closes, acceptance
at its close, and a different-state command passing through. -/
theorem burst_suppression_window_witness :
    parseAppCommand "Unlock" = some (STATE_UNLOCK, "App_Unlock_Command") ∧
    bleManagerStep "Unlock" 1179
      (sendBLEButtonIndicationBurst STATE_UNLOCK 3 30 true 1000 initialSystemStatus)
      = none ∧
    ¬ bleManagerStep "Unlock" 1180
      (sendBLEButtonIndicationBurst STATE_UNLOCK 3 30 true 1000 initialSystemStatus)
      = none ∧
    ¬ bleManagerStep "Record" 1179
      (sendBLEButtonIndicationBurst STATE_UNLOCK 3 30 true 1000 initialSystemStatus)
      = none := by
  refine ⟨by decide, ?_, ?_, ?_⟩
  · exact (burst_suppression_window initialSystemStatus STATE_UNLOCK 1000 1179
      "Unlock" "App_Unlock_Command" STATE_UNLOCK (by decide)).mpr ⟨rfl, by decide⟩
  · intro hnone
    have := (burst_suppression_window initialSystemStatus STATE_UNLOCK 1000 1180
      "Unlock" "App_Unlock_Command" STATE_UNLOCK (by decide)).mp hnone
    omega
  · intro hnone
    have := (burst_suppression_window initialSystemStatus STATE_UNLOCK 1000 1179
      "Record" "App_Record_Command" STATE_RECORDING (by decide)).mp hnone
    simp [STATE_RECORDING, STATE_UNLOCK] at this

/-- C10: the target state requested by an inbound BLE write is a
function of the written token alone — writes of the same token on any
two characteristics of the table request the same state — and in
particular writing `Record` on characteristic 7, the write
characteristic associated with Login, still requests Recording. -/
theorem write_target_independent_of_characteristic
    (i j : Nat) (value : String) (now now2 : Nat)
    (hi : i < bleCharacteristics.length) (hj : j < bleCharacteristics.length) :
    appCommandTargetOfWrite i value now = appCommandTargetOfWrite j value now2 ∧
    (bleCharacteristics.get ⟨7, by decide⟩).associatedState = STATE_LOGIN ∧
    appCommandTargetOfWrite 7 "Record" now = some STATE_RECORDING := by
  refine ⟨rfl, by decide, ?_⟩
  show (parseAppCommand "Record").map Prod.fst = some STATE_RECORDING
  decide

/-- Witness for C10 comparing the Login write characteristic (index 7)
and the Recording write characteristic (index 3). -/
theorem write_target_independent_of_characteristic_witness :
    (7 : Nat) < bleCharacteristics.length ∧ (3 : Nat) < bleCharacteristics.length ∧
    appCommandTargetOfWrite 7 "Record" 0 = appCommandTargetOfWrite 3 "Record" 9 ∧
    appCommandTargetOfWrite 7 "Record" 0 = some STATE_RECORDING := by
  have h := write_target_independent_of_characteristic 7 3 "Record" 0 9
    (by decide) (by decide)
  exact ⟨by decide, by decide, h.1, h.2.2⟩

/-- C5: an all-attempts-failed indication call increments the
consecutive-failure counter by exactly one (so `n` consecutive failed
calls raise it by `n`), the connection is marked unstable as soon as
the counter exceeds 2, and a single successful send resets the counter
to 0 and marks the connection stable immediately. -/
theorem connection_health_failure_and_recovery
    (h : BLEConnectionHealth) (now : Nat) :
    (updateBLEConnectionHealth false now h).indicationFailureCount
      = h.indicationFailureCount + 1 ∧
    (∀ n : Nat, ((updateBLEConnectionHealth false now)^[n] h).indicationFailureCount
      = h.indicationFailureCount + n) ∧
    (2 < (updateBLEConnectionHealth false now h).indicationFailureCount →
      (updateBLEConnectionHealth false now h).connectionStable = false) ∧
    (updateBLEConnectionHealth true now h).indicationFailureCount = 0 ∧
    (updateBLEConnectionHealth true now h).connectionStable = true := by
  have hfail : ∀ g : BLEConnectionHealth,
      (updateBLEConnectionHealth false now g).indicationFailureCount
        = g.indicationFailureCount + 1 := by
    intro g
    unfold updateBLEConnectionHealth
    rw [if_neg (by simp)]
    dsimp only
    split_ifs <;> rfl
  refine ⟨hfail h, ?_, ?_, ?_, ?_⟩
  · intro n
    induction n with
    | zero => simp
    | succ k ih =>
      rw [Function.iterate_succ_apply', hfail, ih]
      omega
  · intro hgt
    rw [hfail] at hgt
    unfold updateBLEConnectionHealth
    rw [if_neg (by simp)]
    rw [if_pos (by simpa using hgt)]
  · simp [updateBLEConnectionHealth]
  · simp [updateBLEConnectionHealth]

/-- Witness for C5 at a health record with two recorded failures: the
third failed call trips the counter past 2 and clears `stable`; one
success on the tripped record recovers fully. -/
theorem connection_health_failure_and_recovery_witness :
    (updateBLEConnectionHealth false 50
        { initialBleHealth with indicationFailureCount := 2,
                                connectionStable := true }).indicationFailureCount = 3 ∧
    2 < (3 : Nat) ∧
    (updateBLEConnectionHealth false 50
        { initialBleHealth with indicationFailureCount := 2,
                                connectionStable := true }).connectionStable = false ∧
    (updateBLEConnectionHealth true 60
        { initialBleHealth with indicationFailureCount := 3 }).indicationFailureCount
      = 0 ∧
    (updateBLEConnectionHealth true 60
        { initialBleHealth with indicationFailureCount := 3 }).connectionStable
      = true := by
  have h1 := connection_health_failure_and_recovery
    { initialBleHealth with indicationFailureCount := 2, connectionStable := true } 50
  have h2 := connection_health_failure_and_recovery
    { initialBleHealth with indicationFailureCount := 3 } 60
  refine ⟨h1.1, by decide, h1.2.2.1 (by rw [h1.1]; decide), h2.2.2.2.1, h2.2.2.2.2⟩

/-- C8: a `LoadScreen` render command for the currently rendered state
with `forceRefresh = false` and `highPriority = false` is a no-op
except for the missed-update counter: the task-local
`lastDisplayedState` and the whole status record but `uiMissedUpdates`
(so `lastUIState` and `lastUIUpdateTime` in particular) are unchanged,
`uiMissedUpdates` grows by exactly 1, and no screen is loaded. -/
theorem load_screen_same_state_noop
    (msg : UIRenderMsg) (lastDisplayedState now : Nat) (st : SystemStatus)
    (hcmd : msg.command = UICommand.loadScreen)
    (hstate : msg.state = lastDisplayedState)
    (hfr : msg.forceRefresh = false) (hhp : msg.highPriority = false) :
    processUIRenderMsg msg lastDisplayedState now st =
      (lastDisplayedState,
       { st with uiMissedUpdates := st.uiMissedUpdates + 1 }, false) := by
  unfold processUIRenderMsg
  rw [hcmd]
  rw [if_neg (by simp [hfr, hhp, hstate])]

/-- Witness for C8 with a concrete redundant `LoadScreen` command. -/
theorem load_screen_same_state_noop_witness :
    (sendUICommandEnhanced UICommand.loadScreen STATE_UNLOCK "" 0 false false 40).command
      = UICommand.loadScreen ∧
    processUIRenderMsg
        (sendUICommandEnhanced UICommand.loadScreen STATE_UNLOCK "" 0 false false 40)
        STATE_UNLOCK 41 initialSystemStatus =
      (STATE_UNLOCK,
       { initialSystemStatus with uiMissedUpdates := 1 }, false) := by
  refine ⟨by decide, ?_⟩
  exact load_screen_same_state_noop
    (sendUICommandEnhanced UICommand.loadScreen STATE_UNLOCK "" 0 false false 40)
    STATE_UNLOCK 41 initialSystemStatus rfl rfl rfl rfl

/-- C9: a watchdog sample trips exactly when recorded inactivity
exceeds the 30 s ceiling or the error counter exceeds 10; over any
trace of samples the watchdog issues at most one restart, it issues
none exactly when every sample stays within both limits, and it issues
exactly one when some sample trips (the restart reboots the device, so
the signal is never repeated). -/
theorem watchdog_restart_once :
    (∀ s : WatchdogSample, watchdogTrips s = true ↔
      (SYSTEM_WATCHDOG_MS < s.currentTime - s.lastActivity ∨ 10 < s.errorCount)) ∧
    (∀ samples : List WatchdogSample, watchdogRun samples ≤ 1) ∧
    (∀ samples : List WatchdogSample,
      (watchdogRun samples = 0 ↔ ∀ s ∈ samples, watchdogTrips s = false)) ∧
    (∀ samples : List WatchdogSample,
      (watchdogRun samples = 1 ↔ ∃ s ∈ samples, watchdogTrips s = true)) := by
  refine ⟨?_, ?_, ?_, ?_⟩
  · intro s
    simp [watchdogTrips]
  · intro samples
    induction samples with
    | nil => simp [watchdogRun]
    | cons s rest ih =>
      unfold watchdogRun
      split_ifs <;> simp [ih]
  · intro samples
    induction samples with
    | nil => simp [watchdogRun]
    | cons s rest ih =>
      unfold watchdogRun
      split_ifs with hs
      · simp [hs]
      · simp only [Bool.not_eq_true] at hs
        simp [hs, ih]
  · intro samples
    induction samples with
    | nil => simp [watchdogRun]
    | cons s rest ih =>
      unfold watchdogRun
      split_ifs with hs
      · simp only [true_iff]
        exact ⟨s, by simp, hs⟩
      · simp only [Bool.not_eq_true] at hs
        rw [ih]
        constructor
        · rintro ⟨x, hx, ht⟩
          exact ⟨x, by simp [hx], ht⟩
        · rintro ⟨x, hx, ht⟩
          rcases List.mem_cons.mp hx with hv | hv
          · subst hv
            rw [hs] at ht
            cases ht
          · exact ⟨x, hv, ht⟩

/-- Witness for C9: a trace whose second sample exceeds the inactivity
ceiling restarts exactly once; a trace within both limits never
restarts. -/
theorem watchdog_restart_once_witness :
    watchdogRun [⟨100, 0, 0⟩, ⟨40000, 0, 0⟩, ⟨80000, 0, 0⟩] = 1 ∧
    watchdogRun [⟨100, 0, 0⟩, ⟨200, 0, 5⟩] = 0 := by
  constructor
  · exact (watchdog_restart_once.2.2.2 _).mpr ⟨⟨40000, 0, 0⟩, by simp, by decide⟩
  · exact (watchdog_restart_once.2.2.1 _).mpr (by decide)

/-- Once `pressProcessed` is set, no further in-hold long-press event is
emitted while the button stays pressed (every sample reads LOW). -/
theorem buttonRun_no_held_after_processed
    (inps : List ButtonSample) (st : ButtonTaskState)
    (hlast : st.lastButtonState = false) (hproc : st.pressProcessed = true)
    (hlow : ∀ inp ∈ inps, inp.level = false) :
    heldEventCount (buttonRun st inps).2 = 0 := by
  induction inps generalizing st with
  | nil => simp [buttonRun, heldEventCount]
  | cons inp rest ih =>
    have hl : inp.level = false := hlow inp (by simp)
    have hstep : buttonStep st inp = ({ st with lastButtonState := inp.level }, []) := by
      unfold buttonStep
      rw [if_neg (by simp [hlast]), if_neg (by simp [hl]), if_neg (by simp [hproc])]
    simp only [buttonRun, hstep]
    simp only [heldEventCount, List.nil_append]
    exact ih { st with lastButtonState := inp.level } (by simp [hl]) (by simp [hproc])
      (fun i hi => hlow i (by simp [hi]))

/-- While the button stays pressed, starting right after press
detection, the in-hold long-press branch fires at most once. -/
theorem buttonRun_held_at_most_once
    (inps : List ButtonSample) (st : ButtonTaskState)
    (hlast : st.lastButtonState = false)
    (hlow : ∀ inp ∈ inps, inp.level = false) :
    heldEventCount (buttonRun st inps).2 ≤ 1 := by
  induction inps generalizing st with
  | nil => simp [buttonRun, heldEventCount]
  | cons inp rest ih =>
    have hl : inp.level = false := hlow inp (by simp)
    by_cases hproc : st.pressProcessed = true
    · have h0 := buttonRun_no_held_after_processed (inp :: rest) st hlast hproc hlow
      omega
    · simp only [Bool.not_eq_true] at hproc
      by_cases hlp : LONG_PRESS_MS ≤ inp.timeMs - st.pressStartTime
      · have hstep : buttonStep st inp =
            ({ st with lastButtonState := inp.level, pressProcessed := true },
             [{ pressed := true, duration := inp.timeMs - st.pressStartTime,
                timestamp := inp.tick, isLongPress := true }]) := by
          unfold buttonStep
          rw [if_neg (by simp [hlast]), if_neg (by simp [hl]),
              if_pos (And.intro hl hproc), if_pos hlp]
        have hrest := buttonRun_no_held_after_processed rest
          { st with lastButtonState := inp.level, pressProcessed := true }
          (by simp [hl]) (by simp) (fun i hi => hlow i (by simp [hi]))
        simp only [buttonRun, hstep]
        simp only [heldEventCount, List.filter_append] at hrest ⊢
        simp only [List.length_append, hrest]
        simp [List.filter]
      · have hstep : buttonStep st inp = ({ st with lastButtonState := inp.level }, []) := by
          unfold buttonStep
          rw [if_neg (by simp [hlast]), if_neg (by simp [hl]),
              if_pos (And.intro hl hproc), if_neg hlp]
        simp only [buttonRun, hstep]
        simp only [heldEventCount, List.nil_append]
        exact ih { st with lastButtonState := inp.level } (by simp [hl])
          (fun i hi => hlow i (by simp [hi]))

/-- Counterexample to C7 as stated: a complete 2500 ms
press-and-release cycle — press confirmed at 0 ms, hold sampled at
2500 ms, release confirmed at 2600 ms — emits only the in-hold
`pressed = true` long-press event and no `pressed = false` release
event at all: once the in-hold branch fires it sets `pressProcessed`,
and the release branch (source line 684 requires `!pressProcessed`)
then emits nothing. -/
theorem long_press_release_emits_no_event_counterexample :
    (buttonRun ⟨true, 0, true⟩
      [⟨false, false, 0, 0⟩, ⟨false, false, 2500, 1⟩, ⟨true, true, 2600, 2⟩]).2
      = [⟨true, 2500, 1, true⟩] ∧
    ¬ ∃ ev ∈ (buttonRun ⟨true, 0, true⟩
      [⟨false, false, 0, 0⟩, ⟨false, false, 2500, 1⟩, ⟨true, true, 2600, 2⟩]).2,
      ev.pressed = false := by
  constructor
  · decide
  · decide

/-- C7 (amended): on every confirmed press-and-release in which the
in-hold long-press has not already fired (`pressProcessed` still
clear), the classifier emits one `ButtonEvent` with `pressed = false`
carrying the measured duration, whose `isLongPress` holds exactly when
the duration reaches 2000 ms; a press of exactly 2000 ms classifies as
a long press and one of 1999 ms does not; the in-hold long-press event
fires at most once per press; and a confirmed release after the
in-hold long-press has fired emits no event. -/
theorem button_long_press_classification :
    (∀ (st : ButtonTaskState) (inp : ButtonSample),
      st.lastButtonState = false → inp.level = true → inp.debouncedLevel = true →
      st.pressProcessed = false →
      ∃ ev : ButtonEvent, (buttonStep st inp).2 = [ev] ∧ ev.pressed = false ∧
        ev.duration = inp.timeMs - st.pressStartTime ∧
        (ev.isLongPress = true ↔ 2000 ≤ ev.duration)) ∧
    (buttonStep ⟨false, 0, false⟩ ⟨true, true, 2000, 10⟩).2 =
      [⟨false, 2000, 10, true⟩] ∧
    (buttonStep ⟨false, 0, false⟩ ⟨true, true, 1999, 11⟩).2 =
      [⟨false, 1999, 11, false⟩] ∧
    (∀ (st : ButtonTaskState) (inps : List ButtonSample),
      st.lastButtonState = false → (∀ inp ∈ inps, inp.level = false) →
      heldEventCount (buttonRun st inps).2 ≤ 1) ∧
    (∀ (st : ButtonTaskState) (inp : ButtonSample),
      st.lastButtonState = false → inp.level = true → st.pressProcessed = true →
      (buttonStep st inp).2 = []) := by
  refine ⟨?_, by decide, by decide, ?_, ?_⟩
  · intro st inp h1 h2 h3 h4
    refine ⟨{ pressed := false, duration := inp.timeMs - st.pressStartTime,
              timestamp := inp.tick,
              isLongPress := decide (LONG_PRESS_MS ≤ inp.timeMs - st.pressStartTime) },
            ?_, rfl, rfl, ?_⟩
    · unfold buttonStep
      rw [if_neg (by simp [h1]), if_pos (And.intro h1 h2), if_pos (And.intro h3 h4)]
    · simp [LONG_PRESS_MS]
  · intro st inps hlast hlow
    exact buttonRun_held_at_most_once inps st hlast hlow
  · intro st inp h1 h2 h3
    unfold buttonStep
    rw [if_neg (by simp [h1]), if_pos (And.intro h1 h2), if_neg (by simp [h3])]

/-- Witness for C7 (amended): a concrete 2500 ms release event from a
press whose in-hold branch has not fired, a concrete held-down trace
crossing the threshold with a single in-hold event, and a concrete
silent release after the in-hold event fired. -/
theorem button_long_press_classification_witness :
    (∃ ev : ButtonEvent,
      (buttonStep ⟨false, 100, false⟩ ⟨true, true, 2600, 12⟩).2 = [ev] ∧
      ev.pressed = false ∧ ev.duration = 2500 ∧
      (ev.isLongPress = true ↔ 2000 ≤ ev.duration)) ∧
    heldEventCount (buttonRun ⟨false, 0, false⟩
      [⟨false, false, 2000, 1⟩, ⟨false, false, 3000, 2⟩, ⟨false, false, 4000, 3⟩]).2
      ≤ 1 ∧
    (buttonStep ⟨false, 0, true⟩ ⟨true, true, 2500, 5⟩).2 = [] := by
  refine ⟨?_, ?_, ?_⟩
  · obtain ⟨ev, he, hp, hd, hlp⟩ := button_long_press_classification.1
      ⟨false, 100, false⟩ ⟨true, true, 2600, 12⟩ rfl rfl rfl rfl
    exact ⟨ev, he, hp, by rw [hd]; rfl, hlp⟩
  · exact button_long_press_classification.2.2.2.1 ⟨false, 0, false⟩ _ rfl (by decide)
  · exact button_long_press_classification.2.2.2.2 ⟨false, 0, true⟩
      ⟨true, true, 2500, 5⟩ rfl rfl rfl
